import Mathlib

/-!
Shallow embedding of the two-wire (TWI/I2C) driver of the atmega repository
(src/libraries/wire/util.rs and src/libraries/wire/mod.rs), of the
critical-section primitive (src/interrupts.rs, src/volatile.rs), and proofs
about them.

Bytes and register values are modelled as `Nat` with explicit `% 256` where
u8 overflow matters.  The 32-byte buffers are `List Nat`; every run considered
below stays in bounds, so `List.set` / `List.getD` coincide with the Rust
indexing.
-/

namespace Atmega

/-- Length of master, TX, and RX buffers (util.rs TWI_BUFFER_LENGTH). -/
def TWI_BUFFER_LENGTH : Nat := 32

/-- util.rs ByteBuffer: index, length and a 32-byte inner array. -/
structure ByteBuffer where
  index : Nat
  length : Nat
  inner : List Nat
  deriving Repr, DecidableEq

namespace ByteBuffer

/-- ByteBuffer::new(): a zeroed buffer. -/
def new : ByteBuffer := ⟨0, 0, List.replicate 32 0⟩

/-- ByteBuffer::single(byte): blank buffer with inner[0] = byte. -/
def single (byte : Nat) : ByteBuffer :=
  { new with inner := new.inner.set 0 byte }

/-- ByteBuffer::reset(): zero the index and length (inner kept). -/
def reset (b : ByteBuffer) : ByteBuffer :=
  { b with index := 0, length := 0 }

/-- The Iterator::next implementation for ByteBuffer (util.rs lines 56-64):
if index >= length, set index to 0 and return None; otherwise return
Some(inner[index]).  Note the source does not advance the index in the
Some branch. -/
def next (b : ByteBuffer) : Option Nat × ByteBuffer :=
  if b.length ≤ b.index then
    (none, { b with index := 0 })
  else
    (some (b.inner.getD b.index 0), b)

end ByteBuffer

/-- Fuel-bounded unfolding of a Rust `for` loop over the ByteBuffer
iterator: collects the yielded items in order.  The Rust loop terminates
exactly when `next` returns `none` within the fuel; the Bool result is
false when the fuel ran out with the iterator still yielding. -/
def iterCollect : Nat → ByteBuffer → List Nat × ByteBuffer × Bool
  | 0, b => ([], b, false)
  | fuel+1, b =>
    match b.next with
    | (none, b') => ([], b', true)
    | (some x, b') =>
      let r := iterCollect fuel b'
      (x :: r.1, r.2.1, r.2.2)

/-- util.rs State: driver mode. -/
inductive State where
  | READY
  | CRX
  | CTX
  | PRX
  | PTX
  deriving Repr, DecidableEq

/-- TW_STATUS_MASK (TWS7..TWS3). -/
def TW_STATUS_MASK : Nat := 0xF8

/-- The status codes recognised by Flags::from_flag. -/
def knownFlags : List Nat :=
  [0x00, 0x08, 0x10, 0x18, 0x20, 0x28, 0x30, 0x38, 0x40, 0x48, 0x50, 0x58,
   0x60, 0x68, 0x70, 0x78, 0x80, 0x88, 0x90, 0x98, 0xA0, 0xA8, 0xB0, 0xB8,
   0xC0, 0xC8, 0xF8]

/-- Flags::from_flag: mask the status register value and recognise it,
returning the masked code (the enum constructor is identified with its
discriminant value). -/
def Flags.from_flag (flag : Nat) : Option Nat :=
  let s := flag &&& TW_STATUS_MASK
  if s ∈ knownFlags then some s else none

/-- The TWCR control register, bit by bit (registers.rs TWCR). -/
structure Twcr where
  twie : Bool
  twen : Bool
  twwc : Bool
  twsto : Bool
  twsta : Bool
  twea : Bool
  twint : Bool
  deriving Repr, DecidableEq

/-- The hardware registers and pins the wire driver touches. -/
structure Regs where
  TWCR : Twcr
  TWBR : Nat
  TWAR : Nat
  TWDR : Nat
  /-- Full TWSR value as read (status bits 7..3; prescaler bits 1..0). -/
  TWSR : Nat
  /-- SDA pull-up state set through digital_write. -/
  sda : Bool
  /-- SCL pull-up state set through digital_write. -/
  scl : Bool
  deriving Repr, DecidableEq

/-- The file-scope Volatile statics of util.rs. -/
structure Drv where
  twi_state : State
  twi_slarw : Nat
  twi_send_stop : Bool
  twi_in_rep_start : Bool
  twi_timeout_us : Nat
  twi_timed_out_flag : Bool
  twi_do_reset_on_timeout : Bool
  twi_master_buffer : ByteBuffer
  twi_tx_buffer : ByteBuffer
  twi_rx_buffer : ByteBuffer
  twi_error : Nat
  deriving Repr, DecidableEq

/-- Combined machine state: driver statics plus hardware registers. -/
structure Mach where
  drv : Drv
  regs : Regs
  deriving Repr, DecidableEq

/-- Initial values of the statics (util.rs lines 197-222). -/
def Drv.init : Drv :=
  { twi_state := State.READY
    twi_slarw := 0
    twi_send_stop := true
    twi_in_rep_start := false
    twi_timeout_us := 0
    twi_timed_out_flag := false
    twi_do_reset_on_timeout := false
    twi_master_buffer := ByteBuffer.new
    twi_tx_buffer := ByteBuffer.new
    twi_rx_buffer := ByteBuffer.new
    twi_error := 0xFF }

/-- Power-on register state used for concrete runs. -/
def Regs.init : Regs :=
  { TWCR := ⟨false, false, false, false, false, false, false⟩
    TWBR := 0
    TWAR := 0
    TWDR := 0
    TWSR := 0
    sda := false
    scl := false }

def Mach.init : Mach := ⟨Drv.init, Regs.init⟩

/-- CPU frequency generated by the build script (default 16 MHz). -/
def CPU_FREQUENCY : Nat := 16000000

/-- util.rs TWI_FREQ. -/
def TWI_FREQ : Nat := 100000

/-- twi_init(): pull-ups on, clear prescaler, set bit rate, enable the
unit with acks and interrupt. -/
def twi_init (m : Mach) : Mach :=
  { m with regs :=
    { m.regs with
      sda := true
      scl := true
      TWSR := m.regs.TWSR &&& 0xFC
      TWBR := ((CPU_FREQUENCY / TWI_FREQ - 16) / 2) % 256
      TWCR := { m.regs.TWCR with twen := true, twie := true, twea := true } } }

/-- twi_disable(): disable the unit and drop the pull-ups. -/
def twi_disable (m : Mach) : Mach :=
  { m with regs :=
    { m.regs with
      TWCR := { m.regs.TWCR with twen := false, twie := false, twea := false }
      sda := false
      scl := false } }

/-- twi_reply(ack): full TWCR write of TWEN|TWIE|TWINT (|TWEA when ack). -/
def twi_reply (ack : Bool) (m : Mach) : Mach :=
  { m with regs := { m.regs with
      TWCR := ⟨true, true, false, false, false, ack, true⟩ } }

/-- twi_release_bus(): full TWCR write of TWEN|TWIE|TWEA|TWINT.
Note: the source does not change twi_state here. -/
def twi_release_bus (m : Mach) : Mach :=
  { m with regs := { m.regs with
      TWCR := ⟨true, true, false, false, false, true, true⟩ } }

/-- twi_handle_timeout(reset): set the sticky flag; when reset, save
TWBR/TWAR, disable and re-init the unit, then restore TWBR/TWAR. -/
def twi_handle_timeout (reset : Bool) (m : Mach) : Mach :=
  let m1 : Mach := { m with drv := { m.drv with twi_timed_out_flag := true } }
  if reset then
    let previous_TWBR := m1.regs.TWBR
    let previous_TWAR := m1.regs.TWAR
    let m2 := twi_init (twi_disable m1)
    { m2 with regs := { m2.regs with TWBR := previous_TWBR, TWAR := previous_TWAR } }
  else
    m1

/-- twi_manage_timeout_flag(clear_flag): read the sticky flag, optionally
clear it, return the value that was read. -/
def twi_manage_timeout_flag (clear_flag : Bool) (s : Drv) : Bool × Drv :=
  let flag := s.twi_timed_out_flag
  (flag, if clear_flag then { s with twi_timed_out_flag := false } else s)

/-- mod.rs get_wire_timeout_flag(): calls twi_manage_timeout_flag(false)
and discards its result — the function's return type is the unit type. -/
def get_wire_timeout_flag (s : Drv) : Unit × Drv :=
  ((), (twi_manage_timeout_flag false s).2)

/-- mod.rs clear_wire_timeout_flag(): calls twi_manage_timeout_flag(true),
discarding its result. -/
def clear_wire_timeout_flag (s : Drv) : Unit × Drv :=
  ((), (twi_manage_timeout_flag true s).2)

/-- twi_stop(): write the stop pattern to TWCR, wait for hardware to clear
TWSTO, then mark the driver ready.  `hwClears` is the environment: whether
the hardware clears TWSTO within the timeout budget.  When it never does
and timeout checking is disabled the source loops forever (`none`); with a
configured timeout the handler gives up through twi_handle_timeout without
touching twi_state. -/
def twi_stop (hwClears : Bool) (m : Mach) : Option Mach :=
  let m1 : Mach := { m with regs := { m.regs with
      TWCR := ⟨true, true, false, true, false, true, true⟩ } }
  if hwClears then
    some { m1 with
      regs := { m1.regs with TWCR := { m1.regs.TWCR with twsto := false } }
      drv := { m1.drv with twi_state := State.READY } }
  else if 0 < m1.drv.twi_timeout_us then
    some (twi_handle_timeout m1.drv.twi_do_reset_on_timeout m1)
  else
    none

/-- Helper: update the master buffer in place. -/
def setMaster (f : ByteBuffer → ByteBuffer) (m : Mach) : Mach :=
  { m with drv := { m.drv with twi_master_buffer := f m.drv.twi_master_buffer } }

/-- Helper: update the peripheral rx buffer in place. -/
def setRx (f : ByteBuffer → ByteBuffer) (m : Mach) : Mach :=
  { m with drv := { m.drv with twi_rx_buffer := f m.drv.twi_rx_buffer } }

/-- Helper: update the peripheral tx buffer in place. -/
def setTx (f : ByteBuffer → ByteBuffer) (m : Mach) : Mach :=
  { m with drv := { m.drv with twi_tx_buffer := f m.drv.twi_tx_buffer } }

/-- Helper: TWDR::write. -/
def writeTWDR (v : Nat) (m : Mach) : Mach :=
  { m with regs := { m.regs with TWDR := v % 256 } }

/-- Helper: record a TWI error code. -/
def setError (v : Nat) (m : Mach) : Mach :=
  { m with drv := { m.drv with twi_error := v } }

/-- The peripheral-transmitter entry block of the interrupt handler
(TW_PT_SLA_ACK | TW_PT_ARB_LOST_SLA_ACK): enter PTX, reset the tx buffer,
run the user transmit callback, and default-fill the buffer with a single
0x00 byte when the callback left it empty. -/
def ptxEntry (periphTx : Mach → Mach) (m : Mach) : Mach :=
  let m1 : Mach := { m with drv := { m.drv with
      twi_state := State.PTX
      twi_tx_buffer := m.drv.twi_tx_buffer.reset } }
  let m2 := periphTx m1
  setTx (fun b =>
    if b.length = 0 then { b with length := 1, inner := b.inner.set 0 0 } else b) m2

/-- The TWI interrupt handler (util.rs fn TWI, vector 24).

`periphTx` is the user callback installed through
twi_attach_peripheral_tx_event; `hwStop` is the twi_stop environment flag.
The result carries the machine plus the arguments of the peripheral-receive
callback when the handler invoked it (buffer clone and byte count).  `none`
models the one diverging path inside twi_stop. -/
def TWI (periphTx : Mach → Mach) (hwStop : Bool) (m : Mach) :
    Option (Mach × Option (ByteBuffer × Nat)) :=
  match Flags.from_flag m.regs.TWSR with
  | none => some (m, none)
  | some status =>
    -- First match block: the arms ported as fallthroughs.
    let m :=
      if status = 0x50 then
        -- TW_CR_DATA_ACK: the source evaluates buf.inner[buf.index] and
        -- discards the value, then increments the index; TWDR is not read.
        setMaster (fun b => { b with index := b.index + 1 }) m
      else if status = 0xA8 ∨ status = 0xB0 then
        ptxEntry periphTx m
      else m
    -- Second match block.
    if status = 0x08 ∨ status = 0x10 then
      -- TW_START | TW_REP_START
      some (twi_reply true (writeTWDR m.drv.twi_slarw m), none)
    else if status = 0x18 ∨ status = 0x28 then
      -- TW_CT_SLA_ACK | TW_CT_DATA_ACK
      if m.drv.twi_master_buffer.index < m.drv.twi_master_buffer.length then
        let m1 := writeTWDR (m.drv.twi_master_buffer.inner.getD m.drv.twi_master_buffer.index 0) m
        let m2 := setMaster (fun b => { b with index := b.index + 1 }) m1
        some (twi_reply true m2, none)
      else if m.drv.twi_send_stop then
        (twi_stop hwStop m).map (fun m' => (m', none))
      else
        let m1 : Mach := { m with drv := { m.drv with twi_in_rep_start := true } }
        let m2 : Mach := { m1 with regs := { m1.regs with
            TWCR := ⟨false, true, false, false, true, false, true⟩ } }
        some ({ m2 with drv := { m2.drv with twi_state := State.READY } }, none)
    else if status = 0x20 then
      -- TW_CT_SLA_NACK
      (twi_stop hwStop (setError 0x20 m)).map (fun m' => (m', none))
    else if status = 0x30 then
      -- TW_CT_DATA_NACK
      (twi_stop hwStop (setError 0x30 m)).map (fun m' => (m', none))
    else if status = 0x38 then
      -- TW_CT_CR_ARB_LOST
      some (twi_release_bus (setError 0x38 m), none)
    else if status = 0x50 ∨ status = 0x40 then
      -- TW_CR_DATA_ACK | TW_CR_SLA_ACK: ACK while more bytes are expected
      some (twi_reply
        (m.drv.twi_master_buffer.index < m.drv.twi_master_buffer.length) m, none)
    else if status = 0x58 then
      -- TW_CR_DATA_NACK: store the final byte
      let m1 := setMaster (fun b =>
        { b with inner := b.inner.set b.index m.regs.TWDR, index := b.index + 1 }) m
      if m1.drv.twi_send_stop then
        (twi_stop hwStop m1).map (fun m' => (m', none))
      else
        let m2 : Mach := { m1 with drv := { m1.drv with twi_in_rep_start := true } }
        let m3 : Mach := { m2 with regs := { m2.regs with
            TWCR := ⟨false, true, false, false, true, false, true⟩ } }
        some ({ m3 with drv := { m3.drv with twi_state := State.READY } }, none)
    else if status = 0x48 then
      -- TW_CR_SLA_NACK
      (twi_stop hwStop m).map (fun m' => (m', none))
    else if status = 0x60 ∨ status = 0x70 ∨ status = 0x68 ∨ status = 0x78 then
      -- peripheral receiver addressed
      let m1 : Mach := { m with drv := { m.drv with
          twi_state := State.PRX
          twi_rx_buffer := m.drv.twi_rx_buffer.reset } }
      some (twi_reply true m1, none)
    else if status = 0x80 ∨ status = 0x90 then
      -- TW_PR_DATA_ACK | TW_PR_GCALL_DATA_ACK: store while room remains.
      -- The source stores at buf.index but does not increment the index.
      let available := m.drv.twi_rx_buffer.index < TWI_BUFFER_LENGTH
      let m1 :=
        if available then
          setRx (fun b => { b with inner := b.inner.set b.index m.regs.TWDR }) m
        else m
      some (twi_reply available m1, none)
    else if status = 0xA0 then
      -- TW_PR_STOP: release the bus, null-terminate, invoke the receive
      -- callback with (buffer clone, index), then zero the index.
      let m1 := twi_release_bus m
      let nulled := setRx (fun b =>
        if b.index < TWI_BUFFER_LENGTH then { b with inner := b.inner.set b.index 0 }
        else b) m1
      let buf := nulled.drv.twi_rx_buffer
      some (setRx (fun b => { b with index := 0 }) nulled, some (buf, buf.index))
    else if status = 0x88 ∨ status = 0x98 then
      -- TW_PR_DATA_NACK | TW_PR_GCALL_DATA_NACK
      some (twi_reply false m, none)
    else if status = 0xA8 ∨ status = 0xB0 then
      -- TW_PT_SLA_ACK | TW_PT_ARB_LOST_SLA_ACK: the port repeats the
      -- entry block a second time (it already ran in the first match).
      some (ptxEntry periphTx m, none)
    else if status = 0xB8 then
      -- TW_PT_DATA_ACK
      let b := m.drv.twi_tx_buffer
      let m1 := writeTWDR (b.inner.getD b.index 0) m
      let m2 := setTx (fun bb => { bb with index := bb.index + 1 }) m1
      some (twi_reply
        (m2.drv.twi_tx_buffer.index < m2.drv.twi_tx_buffer.length) m2, none)
    else if status = 0xC0 ∨ status = 0xC8 then
      -- TW_PT_DATA_NACK | TW_PT_LAST_DATA
      let m1 := twi_reply true m
      some ({ m1 with drv := { m1.drv with twi_state := State.READY } }, none)
    else if status = 0x00 then
      -- TW_BUS_ERROR
      (twi_stop hwStop (setError 0x00 m)).map (fun m' => (m', none))
    else
      -- TW_NO_INFO
      some (m, none)

/-- util.rs ReadError. -/
inductive ReadError where
  | TooLarge
  | Timeout
  deriving Repr, DecidableEq

/-- util.rs TransmitError. -/
inductive TransmitError where
  | TooLarge
  | NotPTX
  deriving Repr, DecidableEq

/-- Inject a hardware event: the environment latches a status code into
TWSR and (for data receptions) a byte into TWDR, then the vector fires. -/
def isrEvent (hwStop : Bool) (status twdr : Nat) (m : Mach) : Option Mach :=
  let m1 : Mach := { m with regs := { m.regs with TWSR := status, TWDR := twdr } }
  (TWI id hwStop m1).map (fun p => p.1)

/-- Compliant-peripheral byte deliveries during a controller receive.  The
bus returns ACK or NACK for a received byte according to the TWEA bit the
driver latched beforehand, which also selects the status code of the next
interrupt (0x50 after ACK, 0x58 after NACK); after a NACK the reception
ends. -/
def simDataBytes (hwStop : Bool) : List Nat → Mach → Option Mach
  | [], m => some m
  | b :: rest, m =>
    let ack := m.regs.TWCR.twea
    match isrEvent hwStop (if ack then 0x50 else 0x58) b m with
    | none => none
    | some m' => if ack then simDataBytes hwStop rest m' else some m'

/-- Controller-receive bus activity with a compliant peripheral that ACKs
its address and supplies `data`: START interrupt, address-ACK interrupt,
then the data bytes. -/
def runReadTransaction (hwStop : Bool) (data : List Nat) (m : Mach) : Option Mach := do
  let m1 ← isrEvent hwStop 0x08 0 m
  let m2 ← isrEvent hwStop 0x40 0 m1
  simDataBytes hwStop data m2

/-- util.rs read_from(address, length, send_stop), run against a simulated
compliant peripheral supplying `data`.

The phases mirror the source: the TooLarge guard; the busy-wait for READY
(when the state is not READY nothing in this closed model will change it,
so the wait ends only through the timeout path — or never, `none`, when
timeout checking is disabled); the setup of the statics and of TWCR; the
bus transaction; the busy-wait for the transaction to leave CRX; and the
final copy of `length` bytes out of the master buffer into a fresh
ByteBuffer (whose length field the source never sets).  `none` also models
the usize underflow of `length - 1` when `length = 0`. -/
def read_from (hwStop : Bool) (address length : Nat) (send_stop : Bool)
    (data : List Nat) (m : Mach) : Option (Except ReadError ByteBuffer × Mach) :=
  if TWI_BUFFER_LENGTH < length then
    some (Except.error ReadError.TooLarge, m)
  else if m.drv.twi_state ≠ State.READY then
    if 0 < m.drv.twi_timeout_us then
      some (Except.error ReadError.Timeout,
            twi_handle_timeout m.drv.twi_do_reset_on_timeout m)
    else none
  else if length = 0 then none
  else
    let m1 : Mach := { m with drv := { m.drv with
        twi_state := State.CRX
        twi_send_stop := send_stop
        twi_error := 0xFF
        twi_master_buffer := { m.drv.twi_master_buffer with
          index := 0, length := length - 1 }
        twi_slarw := 1 ||| ((address * 2) % 256) } }
    let m2 : Mach :=
      if m1.drv.twi_in_rep_start then
        -- already past the START: clear the flag, write the address byte,
        -- re-arm TWINT/TWEA/TWEN/TWIE bit by bit and clear TWSTA
        let m1a : Mach := { m1 with drv := { m1.drv with twi_in_rep_start := false } }
        let m1b := writeTWDR m1a.drv.twi_slarw m1a
        { m1b with regs := { m1b.regs with TWCR := { m1b.regs.TWCR with
            twint := true, twea := true, twen := true, twie := true, twsta := false } } }
      else
        -- send the start condition: set TWINT/TWEA/TWEN/TWIE/TWSTA bit by bit
        { m1 with regs := { m1.regs with TWCR := { m1.regs.TWCR with
            twint := true, twea := true, twen := true, twie := true, twsta := true } } }
    match runReadTransaction hwStop data m2 with
    | none => none
    | some m3 =>
      if m3.drv.twi_state = State.CRX then
        -- the wait for completion can end only through the timeout path
        if 0 < m3.drv.twi_timeout_us then
          some (Except.error ReadError.Timeout,
                twi_handle_timeout m3.drv.twi_do_reset_on_timeout m3)
        else none
      else
        let buf := m3.drv.twi_master_buffer
        let out := (List.range length).foldl
          (fun (acc : ByteBuffer) i => { acc with inner := acc.inner.set i (buf.inner.getD i 0) })
          ByteBuffer.new
        some (Except.ok out, m3)

/-- The mod.rs statics layered over the driver machine. -/
structure WireState where
  mach : Mach
  rx_buffer : ByteBuffer
  deriving Repr, DecidableEq

/-- mod.rs request_from(address, quantity, send_stop): clamp the quantity
to TWI_BUFFER_LENGTH, run read_from with the clamped length, then copy the
returned buffer into the mod-level rx buffer by iterating it (the
enumerate loop is fuel-bounded here; `none` marks a run in which that loop
failed to finish within the fuel). -/
def request_from (hwStop : Bool) (address quantity : Nat) (send_stop : Bool)
    (data : List Nat) (w : WireState) : Option (Except ReadError Unit × WireState) :=
  let clamped := min quantity TWI_BUFFER_LENGTH
  match read_from hwStop address clamped send_stop data w.mach with
  | none => none
  | some (Except.error e, m') => some (Except.error e, { w with mach := m' })
  | some (Except.ok readBuf, m') =>
    let r := iterCollect 64 readBuf
    if r.2.2 = false then none
    else
      let copied := (List.zip (List.range r.1.length) r.1).foldl
        (fun (acc : ByteBuffer) p => { acc with inner := acc.inner.set p.1 p.2 })
        { w.rx_buffer with index := 0, length := readBuf.length }
      some (Except.ok (), { mach := m', rx_buffer := copied })

/-- Write `n` bytes of `src` (from offset 0) into `dst` starting at
`base`: the `for i in 0..n` copy loop used by twi_transmit. -/
def copyInto (src : List Nat) (base : Nat) (dst : List Nat) (n : Nat) : List Nat :=
  (List.range n).foldl (fun acc i => acc.set (base + i) (src.getD i 0)) dst

/-- util.rs twi_transmit(data, length): reject when the bytes would not
fit after the current tx contents, reject when not in PTX, otherwise
append `length` bytes of `data` to the tx buffer. -/
def twi_transmit (data : ByteBuffer) (length : Nat) (s : Drv) :
    Except TransmitError Unit × Drv :=
  if TWI_BUFFER_LENGTH < s.twi_tx_buffer.length + length then
    (Except.error TransmitError.TooLarge, s)
  else if s.twi_state ≠ State.PTX then
    (Except.error TransmitError.NotPTX, s)
  else
    let buf := s.twi_tx_buffer
    (Except.ok (),
     { s with twi_tx_buffer :=
        { buf with
          inner := copyInto data.inner buf.length buf.inner length
          length := buf.length + length } })

namespace Interrupts

/-- A machine as seen by the critical-section code: the AVR status
register (SREG, with the global-interrupt-enable I bit at position 7)
together with the memory the closure operates on. -/
structure Machine (T : Type) where
  sreg : Nat
  mem : T

/-- The global-interrupt-enable flag: bit 7 of SREG. -/
def iflag (sreg : Nat) : Bool := Nat.testBit sreg 7

/-- The cli instruction: clear the I bit, leave the rest of SREG. -/
def cli (sreg : Nat) : Nat := sreg &&& 0x7F

/-- The sei instruction: set the I bit. -/
def sei (sreg : Nat) : Nat := sreg ||| 0x80

/-- interrupts.rs Status: a saved SREG byte. -/
structure Status where
  val : Nat

/-- interrupts.rs disable(): read SREG into a Status, then cli. -/
def disable {T : Type} (m : Machine T) : Status × Machine T :=
  (⟨m.sreg⟩, { m with sreg := cli m.sreg })

/-- interrupts.rs enable(): sei. -/
def enable {T : Type} (m : Machine T) : Machine T :=
  { m with sreg := sei m.sreg }

/-- interrupts.rs restore(status): write the whole saved byte back to SREG. -/
def restore {T : Type} (s : Status) (m : Machine T) : Machine T :=
  { m with sreg := s.val }

/-- interrupts.rs State: what to do with interrupts after `without`. -/
inductive State where
  | ForceOn
  | ForceOff
  | Restore

/-- interrupts.rs without(after, f): save SREG and disable interrupts, run
the closure, then force interrupts on, force them off, or restore the
saved byte. -/
def without {T R : Type} (after : State) (f : Machine T → Machine T × R)
    (m : Machine T) : Machine T × R :=
  let p := disable m
  let q := f p.2
  let m2 :=
    match after with
    | State.ForceOn => enable q.1
    | State.ForceOff => (disable q.1).2
    | State.Restore => restore p.1 q.1
  (m2, q.2)

namespace Volatile

/-- volatile.rs Volatile::read: the whole access runs inside
without(Restore, ..). -/
def read {T : Type} (m : Machine T) : Machine T × T :=
  without State.Restore (fun mm => (mm, mm.mem)) m

/-- volatile.rs Volatile::write. -/
def write {T : Type} (v : T) (m : Machine T) : Machine T :=
  (without State.Restore (fun mm => ({ mm with mem := v }, ())) m).1

/-- volatile.rs Volatile::operate: read-modify-write. -/
def operate {T : Type} (g : T → T) (m : Machine T) : Machine T :=
  (without State.Restore (fun mm => ({ mm with mem := g mm.mem }, ())) m).1

end Volatile

end Interrupts

/-- Controller machine stuck in CRX when the arbitration-lost interrupt
(TWSR = 0x38) fires. -/
def machArb : Mach :=
  { Mach.init with
    drv := { Drv.init with twi_state := State.CRX }
    regs := { Regs.init with TWSR := 0x38 } }

/-- Peripheral-receive scenario: addressed with SLA+W, two data bytes
0x11 and 0x22 delivered with ACK, then a STOP. -/
def prRun : Option (Mach × Option (ByteBuffer × Nat)) := do
  let m1 ← isrEvent true 0x60 0 Mach.init
  let m2 ← isrEvent true 0x80 0x11 m1
  let m3 ← isrEvent true 0x80 0x22 m2
  TWI id true { m3 with regs := { m3.regs with TWSR := 0xA0 } }

/-- A one-byte buffer holding the value 7, as used by the iterator claim. -/
def bufOne : ByteBuffer :=
  { ByteBuffer.new with length := 1, inner := (List.replicate 32 0).set 0 7 }

/-- C1: read_from(0x10, 2, true) against a compliant peripheral that ACKs
and supplies [0xAA, 0xBB] leaves the driver READY but returns a buffer
whose first byte is the stale 0x00, not 0xAA — the interrupt handler's
TW_CR_DATA_ACK branch discards the received byte instead of storing it —
and whose length field is 0, not 2.  This contradicts the claim that
exactly the received bytes are returned. -/
theorem c1_controller_receive_drops_acked_bytes :
    ((read_from true 0x10 2 true [0xAA, 0xBB] Mach.init).map
        (fun p => (p.2.drv.twi_state,
          match p.1 with
          | Except.ok b => some (b.inner.take 2, b.length)
          | Except.error _ => none))
      = some (State.READY, some ([0x00, 0xBB], 0)))
    ∧ ([0x00, 0xBB] : List Nat) ≠ [0xAA, 0xBB] := by
  exact ⟨by decide, by decide⟩

/-- C2: when arbitration is lost (TWSR = 0x38) during a controller-receive
transaction the handler records error 0x38 and releases the bus
(TWEN|TWIE|TWEA|TWINT written to TWCR), but the driver state remains CRX:
twi_release_bus never writes twi_state, so the state does not return to
READY as the claim requires. -/
theorem c2_arbitration_lost_state_not_ready :
    ((TWI id true machArb).map
        (fun p => (p.1.drv.twi_error, p.1.regs.TWCR, p.1.drv.twi_state))
      = some (0x38, ⟨true, true, false, false, false, true, true⟩, State.CRX))
    ∧ State.CRX ≠ State.READY := by
  exact ⟨by decide, by decide⟩

/-- C3: receiving bytes 0x11 then 0x22 as a peripheral and then a STOP
invokes the receive callback with count 0 (not 2) and a buffer whose
first two bytes are 0x00, 0x00: the TW_PR_DATA_ACK branch stores every
byte at the same position because it never increments the index, and the
STOP branch then overwrites that position with the null terminator. -/
theorem c3_peripheral_receive_count_zero :
    (prRun.map (fun p =>
        (p.2.map (fun cb => (cb.2, cb.1.inner.take 2)),
         p.1.drv.twi_state,
         p.1.drv.twi_rx_buffer.index))
      = some (some (0, [0x00, 0x00]), State.PRX, 0))
    ∧ (0 : Nat) ≠ 2 := by
  exact ⟨by decide, by decide⟩

/-- C5: Iterator::next on a buffer of length 1 yields the byte at the
cursor but does not advance the cursor: the second call yields the same
byte again instead of None, and 64 iterations still have not terminated,
contradicting the claim that a buffer of length n yields exactly n bytes
and then terminates. -/
theorem c5_iterator_never_advances :
    bufOne.next = (some 7, bufOne)
    ∧ bufOne.next.2.index = 0
    ∧ bufOne.next.2.next = (some 7, bufOne)
    ∧ (iterCollect 64 bufOne).2.2 = false
    ∧ (iterCollect 64 bufOne).1.length = 64 := by
  refine ⟨by decide, by decide, by decide, by decide, by decide⟩

/-- C6: mod.rs get_wire_timeout_flag() discards the sticky flag and
returns the unit value for every driver state, so it cannot return true
when a timeout has occurred; clear_wire_timeout_flag() does clear the
sticky flag, and the underlying util accessor twi_manage_timeout_flag
returns the flag correctly — the loss happens in the mod.rs wrapper. -/
theorem c6_get_wire_timeout_flag_returns_unit :
    (∀ s : Drv, get_wire_timeout_flag s = ((), s))
    ∧ (∀ s : Drv, (clear_wire_timeout_flag s).2.twi_timed_out_flag = false)
    ∧ (∀ s : Drv, twi_manage_timeout_flag false s = (s.twi_timed_out_flag, s)) := by
  exact ⟨fun s => rfl, fun s => rfl, fun s => rfl⟩

/-- C8: twi_handle_timeout(true) sets the sticky flag, reinitializes the
two-wire unit (TWEN, TWIE, TWEA set, pull-ups on, prescaler cleared) and
leaves TWBR and TWAR with their values from before the reset;
twi_handle_timeout(false) changes only the sticky flag. -/
theorem c8_timeout_reset_preserves_twbr_twar :
    ∀ m : Mach,
      (twi_handle_timeout true m).regs.TWBR = m.regs.TWBR
      ∧ (twi_handle_timeout true m).regs.TWAR = m.regs.TWAR
      ∧ (twi_handle_timeout true m).drv.twi_timed_out_flag = true
      ∧ (twi_handle_timeout true m).regs.TWCR.twen = true
      ∧ (twi_handle_timeout true m).regs.TWCR.twie = true
      ∧ (twi_handle_timeout true m).regs.TWCR.twea = true
      ∧ (twi_handle_timeout true m).regs.sda = true
      ∧ (twi_handle_timeout true m).regs.scl = true
      ∧ (twi_handle_timeout true m).regs.TWSR = m.regs.TWSR &&& 0xFC
      ∧ twi_handle_timeout false m
          = { m with drv := { m.drv with twi_timed_out_flag := true } } := by
  intro m
  exact ⟨rfl, rfl, rfl, rfl, rfl, rfl, rfl, rfl, rfl, rfl⟩

/-- C9: the critical-section primitive saves SREG, clears the
interrupt-enable bit for the duration of the closure, and restores the
saved byte afterwards: for Volatile read, write and operate the
interrupt-enable state after the call equals its value before, and this
holds for an arbitrary closure under without(Restore, ..), so nested
critical sections compose. -/
theorem c9_critical_section_restores_iflag :
    ∀ (T : Type) (v : T) (g : T → T) (m : Interrupts.Machine T),
      Interrupts.iflag (Interrupts.disable m).2.sreg = false
      ∧ (Interrupts.disable m).1.val = m.sreg
      ∧ (Interrupts.Volatile.read m).1.sreg = m.sreg
      ∧ (Interrupts.Volatile.read m).2 = m.mem
      ∧ (Interrupts.Volatile.write v m).sreg = m.sreg
      ∧ (Interrupts.Volatile.write v m).mem = v
      ∧ (Interrupts.Volatile.operate g m).sreg = m.sreg
      ∧ (Interrupts.Volatile.operate g m).mem = g m.mem
      ∧ (∀ (R : Type) (f : Interrupts.Machine T → Interrupts.Machine T × R),
          ((Interrupts.without Interrupts.State.Restore f m).1).sreg = m.sreg) := by
  intro T v g m
  refine ⟨?_, rfl, rfl, rfl, rfl, rfl, rfl, rfl, fun R f => rfl⟩
  have h : Nat.testBit 127 7 = false := by decide
  simp [Interrupts.iflag, Interrupts.disable, Interrupts.cli, Nat.testBit_land, h]

/-- C4 counterexample: request_from with quantity 33 (> 32) against a
compliant peripheral does not return TooLarge — it clamps the quantity to
32, performs the bus transaction and returns Ok, contradicting the claim
that any quantity above 32 is rejected immediately with no hardware
interaction. -/
theorem c4_request_from_33_returns_ok :
    (request_from true 0x10 33 true (List.replicate 32 0x55)
        ⟨Mach.init, ByteBuffer.new⟩).map
      (fun p => (match p.1 with
        | Except.ok _ => true
        | Except.error _ => false, p.2.mach.drv.twi_state))
      = some (true, State.READY) := by decide

/-- C4 as amended: read_from with length > 32 returns TooLarge at once
with the machine untouched, while request_from clamps any quantity of at
least 32 down to 32 and behaves exactly like a 32-byte request (so it
never reports TooLarge because of a large quantity). -/
theorem c4_read_rejects_request_clamps
    (hwStop : Bool) (address length quantity : Nat) (send_stop : Bool)
    (data : List Nat) (m : Mach) (w : WireState)
    (h : TWI_BUFFER_LENGTH < length) (hq : TWI_BUFFER_LENGTH ≤ quantity) :
    read_from hwStop address length send_stop data m
      = some (Except.error ReadError.TooLarge, m)
    ∧ request_from hwStop address quantity send_stop data w
      = request_from hwStop address TWI_BUFFER_LENGTH send_stop data w := by
  constructor
  · simp [read_from, h]
  · unfold request_from
    rw [min_eq_right hq, min_self]

/-- Witness for the amended C4 at length 33 and quantity 40. -/
theorem c4_read_rejects_request_clamps_witness :
    read_from true 0x10 33 true [] Mach.init
      = some (Except.error ReadError.TooLarge, Mach.init)
    ∧ request_from true 0x10 40 true [] ⟨Mach.init, ByteBuffer.new⟩
      = request_from true 0x10 TWI_BUFFER_LENGTH true [] ⟨Mach.init, ByteBuffer.new⟩ :=
  c4_read_rejects_request_clamps true 0x10 33 40 true [] Mach.init
    ⟨Mach.init, ByteBuffer.new⟩ (by decide) (by decide)

/-- Reduction of the handler at a controller-receive data-ACK interrupt
(TWSR = 0x50): the index advances by one and the latched ACK/NACK reply is
ACK exactly when the advanced index is still below the staged length. -/
theorem TWI_at_cr_data_ack (hw : Bool) (d : Drv) (cr : Twcr)
    (br ar dg : Nat) (sda scl : Bool) :
    (TWI id hw ⟨d, ⟨cr, br, ar, dg, 0x50, sda, scl⟩⟩).map
        (fun p => p.1.regs.TWCR.twea)
      = some (decide (d.twi_master_buffer.index + 1 < d.twi_master_buffer.length)) := by
  have hf : Flags.from_flag (0x50 : Nat) = some 0x50 := by decide
  simp only [TWI, hf]
  norm_num [setMaster, twi_reply]

/-- Reduction of the handler at a controller-receive address-ACK interrupt
(TWSR = 0x40): the reply is ACK exactly when the index is below the staged
length. -/
theorem TWI_at_cr_sla_ack (hw : Bool) (d : Drv) (cr : Twcr)
    (br ar dg : Nat) (sda scl : Bool) :
    (TWI id hw ⟨d, ⟨cr, br, ar, dg, 0x40, sda, scl⟩⟩).map
        (fun p => p.1.regs.TWCR.twea)
      = some (decide (d.twi_master_buffer.index < d.twi_master_buffer.length)) := by
  have hf : Flags.from_flag (0x40 : Nat) = some 0x40 := by decide
  simp only [TWI, hf]
  norm_num [twi_reply]

/-- C7: in a controller-receive transaction of n requested bytes the
staged master buffer has length n-1, so the handler's reply latched when
byte j completes (TWSR = 0x50, index j-1 on entry) is ACK exactly while
more than one byte (1 < n - j) remains to be clocked in, and the reply
latched at address-ACK (TWSR = 0x40, index 0, zero bytes received) is ACK
exactly while the whole transaction wants more than one byte: the NACK is
sent one byte early, when exactly one byte remains, never after the last
byte. -/
theorem c7_controller_receive_nack_one_byte_early
    (hw : Bool) (n j : Nat) (d ds : Drv) (cr : Twcr)
    (br ar dg : Nat) (sda scl : Bool)
    (hn : 1 ≤ n) (hj1 : 1 ≤ j) (hj2 : j ≤ n - 1)
    (hdl : d.twi_master_buffer.length = n - 1)
    (hdi : d.twi_master_buffer.index = j - 1)
    (hsl : ds.twi_master_buffer.length = n - 1)
    (hsi : ds.twi_master_buffer.index = 0) :
    (TWI id hw ⟨d, ⟨cr, br, ar, dg, 0x50, sda, scl⟩⟩).map
        (fun p => p.1.regs.TWCR.twea) = some (decide (1 < n - j))
    ∧ (TWI id hw ⟨ds, ⟨cr, br, ar, dg, 0x40, sda, scl⟩⟩).map
        (fun p => p.1.regs.TWCR.twea) = some (decide (1 < n)) := by
  constructor
  · rw [TWI_at_cr_data_ack, hdi, hdl]
    congr 1
    exact decide_eq_decide.mpr (by omega)
  · rw [TWI_at_cr_sla_ack, hsi, hsl]
    congr 1
    exact decide_eq_decide.mpr (by omega)

/-- Driver ready to receive byte 1 of a 3-byte controller read. -/
def drvC7 : Drv :=
  { Drv.init with twi_master_buffer := { ByteBuffer.new with index := 0, length := 2 } }

/-- Witness for C7 at n = 3, j = 1: two bytes remain after the first, so
the latched reply is ACK in both the data-ACK and the address-ACK cases. -/
theorem c7_controller_receive_nack_one_byte_early_witness :
    (TWI id true ⟨drvC7, ⟨Regs.init.TWCR, 0, 0, 0, 0x50, false, false⟩⟩).map
        (fun p => p.1.regs.TWCR.twea) = some (decide (1 < 3 - 1))
    ∧ (TWI id true ⟨drvC7, ⟨Regs.init.TWCR, 0, 0, 0, 0x40, false, false⟩⟩).map
        (fun p => p.1.regs.TWCR.twea) = some (decide (1 < 3)) :=
  c7_controller_receive_nack_one_byte_early true 3 1 drvC7 drvC7
    Regs.init.TWCR 0 0 0 false false
    (by decide) (by decide) (by decide) (by decide) (by decide) (by decide) (by decide)

/-- C10: twi_transmit fails with TooLarge exactly when the existing tx
buffer contents plus the new length exceed the 32-byte capacity, fails
with NotPTX exactly when the bytes fit but the driver is not peripheral
transmitter, leaves the whole driver state (in particular the tx buffer)
unchanged on every error, and appends the bytes only on the Ok path. -/
theorem c10_twi_transmit_error_leaves_buffer_unchanged
    (data : ByteBuffer) (length : Nat) (s : Drv) :
    ((twi_transmit data length s).1 = Except.error TransmitError.TooLarge
        ↔ TWI_BUFFER_LENGTH < s.twi_tx_buffer.length + length)
    ∧ ((twi_transmit data length s).1 = Except.error TransmitError.NotPTX
        ↔ s.twi_tx_buffer.length + length ≤ TWI_BUFFER_LENGTH
          ∧ s.twi_state ≠ State.PTX)
    ∧ (∀ e, (twi_transmit data length s).1 = Except.error e
        → (twi_transmit data length s).2 = s)
    ∧ (s.twi_tx_buffer.length + length ≤ TWI_BUFFER_LENGTH
        → s.twi_state = State.PTX
        → (twi_transmit data length s).1 = Except.ok ()
          ∧ (twi_transmit data length s).2.twi_tx_buffer.length
              = s.twi_tx_buffer.length + length
          ∧ (twi_transmit data length s).2.twi_tx_buffer.inner
              = copyInto data.inner s.twi_tx_buffer.length s.twi_tx_buffer.inner length) := by
  by_cases h1 : TWI_BUFFER_LENGTH < s.twi_tx_buffer.length + length
  · refine ⟨?_, ?_, ?_, ?_⟩
    · simp [twi_transmit, h1]
    · simp only [twi_transmit, if_pos h1]
      constructor
      · intro he
        exact absurd he (by simp)
      · intro hc
        exact absurd h1 (by omega)
    · intro e _
      simp [twi_transmit, h1]
    · intro hle _
      exact absurd h1 (by omega)
  · by_cases h2 : s.twi_state = State.PTX
    · refine ⟨?_, ?_, ?_, ?_⟩
      · simp [twi_transmit, h1, h2]
      · simp [twi_transmit, h1, h2]
      · intro e he
        simp [twi_transmit, h1, h2] at he
      · intro _ _
        refine ⟨?_, ?_, ?_⟩
        · simp [twi_transmit, h1, h2]
        · simp [twi_transmit, h1, h2]
        · simp [twi_transmit, h1, h2]
    · refine ⟨?_, ?_, ?_, ?_⟩
      · simp [twi_transmit, h1, h2]
      · simp [twi_transmit, h1, h2]
        omega
      · intro e _
        simp [twi_transmit, h1, h2]
      · intro _ hptx
        exact absurd hptx h2

/-- Peripheral-transmitter driver state used by the C10 witness. -/
def drvPtx : Drv := { Drv.init with twi_state := State.PTX }

/-- Witness for C10 at a concrete Ok-path input: appending one byte to an
empty tx buffer in PTX succeeds and extends the buffer. -/
theorem c10_twi_transmit_error_leaves_buffer_unchanged_witness :
    (twi_transmit (ByteBuffer.single 5) 1 drvPtx).1 = Except.ok ()
    ∧ (twi_transmit (ByteBuffer.single 5) 1 drvPtx).2.twi_tx_buffer.length
        = drvPtx.twi_tx_buffer.length + 1
    ∧ (twi_transmit (ByteBuffer.single 5) 1 drvPtx).2.twi_tx_buffer.inner
        = copyInto (ByteBuffer.single 5).inner drvPtx.twi_tx_buffer.length
            drvPtx.twi_tx_buffer.inner 1 :=
  (c10_twi_transmit_error_leaves_buffer_unchanged (ByteBuffer.single 5) 1 drvPtx).2.2.2
    (by decide) (by decide)

end Atmega
